import Mathlib

/-!
Verification development for the usagedash usage derivation and
reconciliation engine.  The Python source is shallowly embedded:
datetimes become an explicit record of calendar fields, JSON values a
small inductive tree, optional values `Option`, and the fallible parse
of the Claude stats cache an `Except`.  Machine floats are modelled by
exact rationals.
-/

namespace Usagedash

/-- A naive `datetime.datetime` value (the engine strips tzinfo
everywhere before storing timestamps). -/
structure DateTime where
  year : Nat
  month : Nat
  day : Nat
  hour : Nat
  minute : Nat
  second : Nat
  micro : Nat
deriving DecidableEq, Repr

/-- Field bounds of a representable Python datetime. -/
def DateTime.Valid (d : DateTime) : Prop :=
  1 ≤ d.year ∧ d.year ≤ 9999 ∧ 1 ≤ d.month ∧ d.month ≤ 12 ∧
  1 ≤ d.day ∧ d.day ≤ 31 ∧ d.hour ≤ 23 ∧ d.minute ≤ 59 ∧
  d.second ≤ 59 ∧ d.micro ≤ 999999

instance (d : DateTime) : Decidable d.Valid := by
  unfold DateTime.Valid; infer_instance

/-- Radix encoding of the calendar fields; for valid datetimes it is
exactly Python's field-lexicographic datetime order. -/
def DateTime.key (d : DateTime) : Nat :=
  (((((d.year * 13 + d.month) * 32 + d.day) * 24 + d.hour) * 60 +
      d.minute) * 60 + d.second) * 1000000 + d.micro

/-- `a <= b` on datetimes. -/
def dtLe (a b : DateTime) : Bool := a.key ≤ b.key

/-- JSON values (`json.loads` output); numbers are exact rationals. -/
inductive Json where
  | null : Json
  | bool (b : Bool) : Json
  | num (q : ℚ) : Json
  | str (s : String) : Json
  | arr (xs : List Json) : Json
  | obj (kvs : List (String × Json)) : Json

/-- Lookup of a key in a JSON object, first binding wins
(`dict` lookup after `json.loads`, which keeps the last duplicate;
duplicate keys do not arise in this engine's data). -/
def Json.get : Json → String → Option Json
  | .obj kvs, k => kvs.lookup k
  | _, _ => none

/- ## ISO-8601 formatting and parsing of naive datetimes -/

/-- Zero-padded fixed-width decimal rendering of `n` (the low `k`
digits, which is all of `n` when `n < 10 ^ k`). -/
def padDigits : Nat → Nat → List Char
  | 0, _ => []
  | k + 1, n => padDigits k (n / 10) ++ [Char.ofNat (48 + n % 10)]

/-- Read exactly `k` decimal digits, folding them onto `acc`. -/
def parseDigitsAcc : Nat → Nat → List Char → Option (Nat × List Char)
  | 0, acc, l => some (acc, l)
  | _ + 1, _, [] => none
  | k + 1, acc, c :: l =>
    if c.isDigit then parseDigitsAcc k (acc * 10 + (c.toNat - 48)) l else none

/-- Expect one fixed character. -/
def expectChar (c : Char) : List Char → Option (List Char)
  | d :: l => if d = c then some l else none
  | [] => none

/-- `datetime.isoformat()` for a naive datetime:
`YYYY-MM-DDTHH:MM:SS`, with `.ffffff` appended iff the microsecond
field is nonzero. -/
def isoFormatList (d : DateTime) : List Char :=
  padDigits 4 d.year ++ '-' :: padDigits 2 d.month ++ '-' :: padDigits 2 d.day ++
  'T' :: padDigits 2 d.hour ++ ':' :: padDigits 2 d.minute ++
  ':' :: padDigits 2 d.second ++
  (if d.micro = 0 then [] else '.' :: padDigits 6 d.micro)

def isoFormat (d : DateTime) : String := ⟨isoFormatList d⟩

/-- An optional trailing UTC-offset suffix (`+HH:MM` / `-HH:MM`),
accepted and discarded: every caller either strips tzinfo right after
parsing or only ever receives naive strings. -/
def parseOffsetEnd : List Char → Option Unit
  | [] => some ()
  | c :: l =>
    if c = '+' || c = '-' then
      (parseDigitsAcc 2 0 l).bind fun hl =>
      (expectChar ':' hl.2).bind fun l2 =>
      (parseDigitsAcc 2 0 l2).bind fun ml =>
      match ml.2 with
      | [] => some ()
      | _ => none
    else none

/-- `datetime.fromisoformat` restricted to the formats produced by
`datetime.isoformat` (the only strings this engine ever feeds back),
with tzinfo discarded. -/
def isoParseList (l : List Char) : Option DateTime :=
  (parseDigitsAcc 4 0 l).bind fun yl =>
  (expectChar '-' yl.2).bind fun l1 =>
  (parseDigitsAcc 2 0 l1).bind fun mol =>
  (expectChar '-' mol.2).bind fun l2 =>
  (parseDigitsAcc 2 0 l2).bind fun dal =>
  (expectChar 'T' dal.2).bind fun l3 =>
  (parseDigitsAcc 2 0 l3).bind fun hl =>
  (expectChar ':' hl.2).bind fun l4 =>
  (parseDigitsAcc 2 0 l4).bind fun mil =>
  (expectChar ':' mil.2).bind fun l5 =>
  (parseDigitsAcc 2 0 l5).bind fun sl =>
  match sl.2 with
  | '.' :: l6 =>
    (parseDigitsAcc 6 0 l6).bind fun usl =>
    (parseOffsetEnd usl.2).bind fun _ =>
    some ⟨yl.1, mol.1, dal.1, hl.1, mil.1, sl.1, usl.1⟩
  | rest =>
    (parseOffsetEnd rest).bind fun _ =>
    some ⟨yl.1, mol.1, dal.1, hl.1, mil.1, sl.1, 0⟩

def isoParse (s : String) : Option DateTime := isoParseList s.data

/- ## Data model (models.py, config.py, providers/base.py) -/

inductive ProviderName where
  | codex | claude | gemini
deriving DecidableEq, Repr

def ProviderName.str : ProviderName → String
  | .codex => "codex"
  | .claude => "claude"
  | .gemini => "gemini"

inductive StatusKind where
  | ok | partialStatus | error
deriving DecidableEq, Repr

inductive SourceKind where
  | parsed | manual | mixed
deriving DecidableEq, Repr

/-- `PartialUsage` (providers/base.py). -/
structure PartialUsage where
  session_used_pct : Option ℚ := none
  session_reset_at : Option DateTime := none
  weekly_used_pct : Option ℚ := none
  weekly_reset_at : Option DateTime := none
  details : Option Json := none
  messages : List String := []

/-- `ManualFields` (config.py). -/
structure ManualFields where
  session_used_pct : Option ℚ := none
  session_reset_at : Option DateTime := none
  weekly_used_pct : Option ℚ := none
  weekly_reset_at : Option DateTime := none
deriving DecidableEq, Repr

/-- `ProviderConfig` (config.py). -/
structure ProviderConfig where
  enabled : Bool := true
  parser_mode : String := "hybrid"
  manual : ManualFields := {}
deriving DecidableEq, Repr

/-- `ProviderSnapshot` (models.py). -/
structure ProviderSnapshot where
  provider : ProviderName
  status : StatusKind
  session_used_pct : Option ℚ := none
  session_reset_at : Option DateTime := none
  weekly_used_pct : Option ℚ := none
  weekly_reset_at : Option DateTime := none
  source : SourceKind := .manual
  messages : List String := []
  details : Json := .obj []
  updated_at : DateTime

/-- `x if x is not None else y` on optional floats. -/
def pyOrQ (a b : Option ℚ) : Option ℚ :=
  match a with
  | some v => some v
  | none => b

/-- Python `a or b` on optional datetimes (a datetime object is always
truthy, `None` is falsy). -/
def pyOrDT (a b : Option DateTime) : Option DateTime :=
  match a with
  | some v => some v
  | none => b

/-- `any(v is not None for v in [parsed fields])` (base.py lines 39-41). -/
def parsedAny (p : PartialUsage) : Bool :=
  p.session_used_pct.isSome || p.session_reset_at.isSome ||
  p.weekly_used_pct.isSome || p.weekly_reset_at.isSome

/-- `any(v is not None for v in [manual fields])` (base.py lines 42-44). -/
def manualAny (m : ManualFields) : Bool :=
  m.session_used_pct.isSome || m.session_reset_at.isSome ||
  m.weekly_used_pct.isSome || m.weekly_reset_at.isSome

/-- `merge_usage` (providers/base.py lines 29-76); `now` is passed
explicitly in place of `datetime.now(timezone.utc)`. -/
def merge_usage (name : ProviderName) (part : Option PartialUsage)
    (cfg : ProviderConfig) (now : DateTime) : ProviderSnapshot :=
  let parsed := part.getD { messages := [] }
  let messages := parsed.messages
  let session_used := pyOrQ parsed.session_used_pct cfg.manual.session_used_pct
  let session_reset := pyOrDT parsed.session_reset_at cfg.manual.session_reset_at
  let weekly_used := pyOrQ parsed.weekly_used_pct cfg.manual.weekly_used_pct
  let weekly_reset := pyOrDT parsed.weekly_reset_at cfg.manual.weekly_reset_at
  let pAny := parsedAny parsed
  let mAny := manualAny cfg.manual
  let source : SourceKind :=
    if pAny && mAny then .mixed
    else if pAny then .parsed
    else .manual
  let statusMsgs : StatusKind × List String :=
    if session_used.isSome || weekly_used.isSome then
      if session_reset.isSome || weekly_reset.isSome then (.ok, messages)
      else (.partialStatus, messages ++ ["usage detected but reset timestamps missing"])
    else if pAny || mAny then (.partialStatus, messages)
    else (.error,
      messages ++ ["no usage metrics detected; configure providers." ++ name.str ++ ".manual.*"])
  { provider := name
    status := statusMsgs.1
    session_used_pct := session_used
    session_reset_at := session_reset
    weekly_used_pct := weekly_used
    weekly_reset_at := weekly_reset
    source := source
    messages := statusMsgs.2
    details := parsed.details.getD (.obj [])
    updated_at := now }

/- ## Claude statistical engine (providers/claude.py) -/

/-- Stable ascending insertion of one value (building block for
Python's `sorted`). -/
def insortQ (x : ℚ) : List ℚ → List ℚ
  | [] => [x]
  | y :: ys => if x ≤ y then x :: y :: ys else y :: insortQ x ys

/-- Python `sorted` on a list of floats, modelled on exact rationals. -/
def sortedQ (l : List ℚ) : List ℚ := l.foldr insortQ []

/-- `statistics.quantiles(values, n=10, method="inclusive")[8]` for at
least two data points: with `m = len - 1`, `j, delta = divmod(9 * m, 10)`
the result is `(s[j] * (10 - delta) + s[j + 1] * delta) / 10` over the
sorted data. -/
def quantilesInclusive90 (data : List ℚ) : ℚ :=
  let s := sortedQ data
  let m := s.length - 1
  let j := 9 * m / 10
  let delta := 9 * m % 10
  (s.getD j 0 * ((10 - delta : ℕ) : ℚ) + s.getD (j + 1) 0 * (delta : ℚ)) / 10

/-- `_p90` (claude.py lines 307-318).  The `except` fallback branch is
unreachable: `statistics.quantiles` with the inclusive method only
raises for fewer than two data points, which the guards exclude. -/
def p90 (values : List ℚ) : Option ℚ :=
  if values = [] then none
  else if values.length = 1 then some (values.headD 0)
  else some (quantilesInclusive90 values)

/-- Python `a or dflt` where `a` is an optional float (`0.0` is falsy). -/
def pyOrFloat (a : Option ℚ) (dflt : ℚ) : ℚ :=
  match a with
  | some v => if v = 0 then dflt else v
  | none => dflt

/-- `_p90(token_series) or DEFAULT_SESSION_TOKEN_LIMIT` (claude.py
line 170). -/
def tokenLimitP90 (series : List ℚ) : ℚ := pyOrFloat (p90 series) 300000

/-- `_p90(msg_series) or 200.0` (claude.py line 171). -/
def messageLimitP90 (series : List ℚ) : ℚ := pyOrFloat (p90 series) 200

/-- A JSON leaf that may or may not be numeric (for the
`isinstance(v, (int, float))` tests on usage counters). -/
inductive JNum where
  | num (q : ℚ)
  | other
deriving DecidableEq, Repr

/-- The `"usage"` object of a log line; absent keys are `none`. -/
structure UsageObj where
  input_tokens : Option JNum := none
  output_tokens : Option JNum := none
deriving DecidableEq, Repr

/-- The `"message"` object of a log line; `usage = none` models both an
absent key and a non-dict value. -/
structure MsgObj where
  role : Option String := none
  usage : Option UsageObj := none
  id : Option String := none
  model : Option String := none
deriving DecidableEq, Repr

/-- A `"timestamp"` string as classified by `_parse_ts`: either it
parses to a datetime or it is missing/empty/unparseable. -/
inductive TsField where
  | valid (dt : DateTime)
  | invalid
deriving DecidableEq, Repr

/-- One decoded project-log JSON object (the fields the engine reads). -/
structure LogObj where
  type : Option String := none
  message : Option MsgObj := none
  requestId : Option String := none
  request_id : Option String := none
  uuid : Option String := none
  timestamp : Option TsField := none
deriving DecidableEq, Repr

/-- One physical line of a project-log file: either undecodable JSON
(skipped by the `except json.JSONDecodeError` handler) or an object.
The textual `"usage" in line` prefilter is subsumed by the
qualification predicate below. -/
inductive LogLine where
  | malformed
  | obj (o : LogObj)
deriving DecidableEq, Repr

/-- `_parse_ts` (claude.py lines 255-261) applied to the raw field. -/
def parseTs : Option TsField → Option DateTime
  | some (.valid dt) => some dt
  | _ => none

/-- Python truthiness of an optional string (`None` and `""` falsy). -/
def pyTruthyStr : Option String → Bool
  | none => false
  | some s => !(s == "")

/-- Contribution of one usage counter to `_usage_total_tokens`: an
absent key defaults to `0`, a non-numeric value is not added. -/
def jnumContrib : Option JNum → ℚ
  | none => 0
  | some (.num q) => q
  | some .other => 0

/-- `_usage_total_tokens` (claude.py lines 264-276). -/
def usageTotalTokens (u : UsageObj) : ℚ :=
  jnumContrib u.input_tokens + jnumContrib u.output_tokens

/-- `_is_primary_assistant_usage_entry` (claude.py lines 279-289). -/
def isPrimaryAssistantUsageEntry (o : LogObj) : Bool :=
  o.type == some "assistant" &&
  (match o.message with
   | some m => m.role == some "assistant" && m.usage.isSome
   | none => false)

/-- `_entry_identity` (claude.py lines 292-304): preference order
(requestId, messageId) > (requestId, uuid) > messageId > uuid. -/
def entryIdentity (o : LogObj) : Option String :=
  let rid := if pyTruthyStr o.requestId then o.requestId else o.request_id
  let mid := o.message.bind (·.id)
  let uid := o.uuid
  if pyTruthyStr rid && pyTruthyStr mid then
    some (rid.getD "" ++ ":" ++ mid.getD "")
  else if pyTruthyStr rid && pyTruthyStr uid then
    some (rid.getD "" ++ ":" ++ uid.getD "")
  else if pyTruthyStr mid then mid
  else if pyTruthyStr uid then uid
  else none

/-- `msg.get("usage") or {}` for a log object. -/
def usageOf (o : LogObj) : UsageObj :=
  (o.message.bind (·.usage)).getD {}

/-- Identity key of a physical line (none for undecodable lines). -/
def lineIdentity : LogLine → Option String
  | .malformed => none
  | .obj o => entryIdentity o

/-- A collected entry `(ts, tokens, model)`. -/
abbrev Entry := DateTime × ℚ × String

/-- Accumulator of the per-line scan in `_parse_from_projects`
(claude.py lines 107-141): the seen-identity set, the global
historical entry list, the per-file entry lists (files are abstract
indices), and the trailing-7-day token sum. -/
structure ScanState where
  seen : List String
  historical : List Entry
  perFile : Nat → List Entry
  weekly : ℚ

def initScan : ScanState := ⟨[], [], fun _ => [], 0⟩

/-- Processing of one line of one file inside the nested loops of
`_parse_from_projects` (claude.py lines 113-139). -/
def scanStep (sevenDaysAgo : DateTime) (st : ScanState) (fl : Nat × LogLine) :
    ScanState :=
  match fl.2 with
  | .malformed => st
  | .obj o =>
    match parseTs o.timestamp with
    | none => st
    | some ts =>
      if !isPrimaryAssistantUsageEntry o then st
      else
        match entryIdentity o with
        | none => st
        | some eid =>
          if eid ∈ st.seen then st
          else
            let st1 : ScanState := { st with seen := eid :: st.seen }
            let tokens := usageTotalTokens (usageOf o)
            if tokens ≤ 0 then st1
            else
              let model := (o.message.bind (·.model)).getD "unknown"
              { st1 with
                historical := st1.historical ++ [(ts, tokens, model)]
                perFile := fun p =>
                  if p = fl.1 then st1.perFile p ++ [(ts, tokens, model)]
                  else st1.perFile p
                weekly :=
                  if dtLe sevenDaysAgo ts then st1.weekly + tokens
                  else st1.weekly }

/-- The whole scan over the concatenated file contents; every stream
element is a (file index, line) pair. -/
def scanLines (sevenDaysAgo : DateTime) (lines : List (Nat × LogLine)) :
    ScanState :=
  lines.foldl (scanStep sevenDaysAgo) initScan

/- ## Claude stats-cache extraction and _parse (claude.py lines 28-84) -/

/-- `_pick` (claude.py lines 227-233). -/
def pick (data : Json) : List String → Option Json
  | [] => some data
  | k :: rest =>
    match data.get k with
    | none => none
    | some v => pick v rest

/-- `_pick_float` (claude.py lines 236-241).  `isinstance(v, (int,
float))` also accepts Python booleans (`bool` subclasses `int`), which
convert to 1.0 / 0.0. -/
def pickFloat (data : Json) : List (List String) → Option ℚ
  | [] => none
  | path :: rest =>
    match pick data path with
    | some (.num q) => some q
    | some (.bool b) => some (if b then 1 else 0)
    | _ => pickFloat data rest

/-- `_pick_dt` (claude.py lines 244-252): a string hit is parsed with
`fromisoformat` after `Z` is rewritten to `+00:00`; unparseable or
non-string hits fall through to the next candidate path. -/
def pickDt (data : Json) : List (List String) → Option DateTime
  | [] => none
  | path :: rest =>
    match pick data path with
    | some (.str s) =>
      match isoParse (s.replace "Z" "+00:00") with
      | some dt => some dt
      | none => pickDt data rest
    | _ => pickDt data rest

def sessionPctPaths : List (List String) :=
  [["limits", "session", "percent_used"], ["session", "percent_used"],
   ["session_percent_used"]]

def weeklyPctPaths : List (List String) :=
  [["limits", "weekly", "percent_used"], ["weekly", "percent_used"],
   ["weekly_percent_used"]]

def sessionResetPaths : List (List String) :=
  [["limits", "session", "reset_at"], ["session", "reset_at"],
   ["session_reset_at"]]

def weeklyResetPaths : List (List String) :=
  [["limits", "weekly", "reset_at"], ["weekly", "reset_at"],
   ["weekly_reset_at"]]

/-- Result of `self.stats_path.exists()` followed by
`json.loads(self.stats_path.read_text(...))`: the file may be missing,
may hold undecodable JSON (in which case `json.loads` raises), or may
decode to a JSON value. -/
inductive StatsRead where
  | missing
  | malformed
  | ok (j : Json)

/-- Python truthiness of the optional details dict
(`if project_partial.details:`). -/
def detailsTruthy : Option Json → Bool
  | none => false
  | some (.obj []) => false
  | some _ => true

/-- `ClaudeAdapter._parse` (claude.py lines 28-84).  `projectPartial`
stands for the value of `self._parse_from_projects()`; `statsPath` for
the textual `self.stats_path`.  The unguarded `json.loads` of a
malformed stats cache raises, modelled by `Except.error`. -/
def claudeParse (statsPath : String) (stats : StatsRead)
    (projectPartial : PartialUsage) : Except String PartialUsage :=
  match stats with
  | .missing => .ok { messages := ["missing " ++ statsPath] }
  | .malformed => .error "json.decoder.JSONDecodeError"
  | .ok data =>
    let session_used := pickFloat data sessionPctPaths
    let weekly_used := pickFloat data weeklyPctPaths
    let session_reset := pickDt data sessionResetPaths
    let weekly_reset := pickDt data weeklyResetPaths
    let details : Option Json :=
      if detailsTruthy projectPartial.details then projectPartial.details
      else none
    let messages := ([] : List String) ++ projectPartial.messages
    let session_used := pyOrQ projectPartial.session_used_pct session_used
    let weekly_used := pyOrQ projectPartial.weekly_used_pct weekly_used
    let session_reset := pyOrDT projectPartial.session_reset_at session_reset
    let weekly_reset := pyOrDT projectPartial.weekly_reset_at weekly_reset
    let messages :=
      if session_used = none ∧ weekly_used = none then
        messages ++ ["unable to infer Claude usage from stats-cache.json or project logs"]
      else messages
    .ok
      { session_used_pct := session_used
        session_reset_at := session_reset
        weekly_used_pct := weekly_used
        weekly_reset_at := weekly_reset
        details := details
        messages := messages }

/-- Match a literal character sequence, returning the remainder. -/
def matchLit : List Char → List Char → Option (List Char)
  | [], rest => some rest
  | _ :: _, [] => none
  | c :: cs, d :: rest => if d = c then matchLit cs rest else none

/-- Value of a matched digit group. -/
def digitsToNat (ds : List Char) : Nat :=
  ds.foldl (fun a c => a * 10 + (c.toNat - 48)) 0

/-- Attempt of `FIVE_HOUR_RE` at the head of the text:
`5h limit:\s*\[[^\]]*\]\s*([0-9]{1,3})% left \(resets
([0-9]{2}:[0-9]{2})\)`.  `[^\]]*` cannot cross a `]`, so the greedy
drop to the first `]` is exact; `[0-9]{1,3}` followed by the
non-digit `%` is exactly a maximal digit run of length 1 to 3. -/
def fiveHourMatchAt (l : List Char) : Option (Nat × Nat × Nat) :=
  (matchLit "5h limit:".data l).bind fun r =>
  (expectChar '[' (r.dropWhile Char.isWhitespace)).bind fun r =>
  (expectChar ']' (r.dropWhile (fun c => !(c = ']')))).bind fun r =>
  let r := r.dropWhile Char.isWhitespace
  let ds := r.takeWhile Char.isDigit
  if 1 ≤ ds.length ∧ ds.length ≤ 3 then
    (matchLit "% left (resets ".data (r.drop ds.length)).bind fun r =>
    (parseDigitsAcc 2 0 r).bind fun hh =>
    (expectChar ':' hh.2).bind fun r =>
    (parseDigitsAcc 2 0 r).bind fun mm =>
    (expectChar ')' mm.2).bind fun _ =>
    some (digitsToNat ds, hh.1, mm.1)
  else none

/-- `FIVE_HOUR_RE.search`: try the pattern at every start position. -/
def fiveHourSearch : List Char → Option (Nat × Nat × Nat)
  | [] => none
  | c :: rest =>
    match fiveHourMatchAt (c :: rest) with
    | some r => some r
    | none => fiveHourSearch rest

/-- Attempt of `WEEKLY_RE` at the head of the text:
`Weekly limit:\s*\[[^\]]*\]\s*([0-9]{1,3})% left \(resets
([0-9]{2}:[0-9]{2}) on ([0-9]{1,2} [A-Za-z]{3})\)`.  Returns
(percent, hour, minute, day, month-name). -/
def weeklyMatchAt (l : List Char) : Option (Nat × Nat × Nat × Nat × String) :=
  (matchLit "Weekly limit:".data l).bind fun r =>
  (expectChar '[' (r.dropWhile Char.isWhitespace)).bind fun r =>
  (expectChar ']' (r.dropWhile (fun c => !(c = ']')))).bind fun r =>
  let r := r.dropWhile Char.isWhitespace
  let ds := r.takeWhile Char.isDigit
  if 1 ≤ ds.length ∧ ds.length ≤ 3 then
    (matchLit "% left (resets ".data (r.drop ds.length)).bind fun r =>
    (parseDigitsAcc 2 0 r).bind fun hh =>
    (expectChar ':' hh.2).bind fun r =>
    (parseDigitsAcc 2 0 r).bind fun mm =>
    (matchLit " on ".data mm.2).bind fun r =>
    let dds := r.takeWhile Char.isDigit
    if 1 ≤ dds.length ∧ dds.length ≤ 2 then
      let r := r.drop dds.length
      (expectChar ' ' r).bind fun r =>
      match r with
      | a :: b :: c :: r2 =>
        if a.isAlpha ∧ b.isAlpha ∧ c.isAlpha then
          (expectChar ')' r2).bind fun _ =>
          some (digitsToNat ds, hh.1, mm.1, digitsToNat dds, String.mk [a, b, c])
        else none
      | _ => none
    else none
  else none

/-- `WEEKLY_RE.search`. -/
def weeklySearch : List Char → Option (Nat × Nat × Nat × Nat × String)
  | [] => none
  | c :: rest =>
    match weeklyMatchAt (c :: rest) with
    | some r => some r
    | none => weeklySearch rest

def isLeapYear (y : Nat) : Bool :=
  (y % 4 = 0 && !(y % 100 = 0)) || y % 400 = 0

def daysInMonth (y m : Nat) : Nat :=
  if m = 2 then (if isLeapYear y then 29 else 28)
  else if m = 4 ∨ m = 6 ∨ m = 9 ∨ m = 11 then 30
  else 31

/-- `%b` month abbreviation as accepted by `strptime`
(case-insensitive). -/
def monthOfAbbrev (s : String) : Option Nat :=
  match s.toLower with
  | "jan" => some 1 | "feb" => some 2 | "mar" => some 3 | "apr" => some 4
  | "may" => some 5 | "jun" => some 6 | "jul" => some 7 | "aug" => some 8
  | "sep" => some 9 | "oct" => some 10 | "nov" => some 11 | "dec" => some 12
  | _ => none

/-- The scan loop of `CodexAdapter._parse_from_history` (codex.py
lines 191-208).  `strptime` raising `ValueError` on an out-of-range
clock time or calendar date is modelled by `Except.error`. -/
def histLoop (now : DateTime) : List String → Option ℚ → Option DateTime →
    Option ℚ → Option DateTime →
    Except String (Option ℚ × Option DateTime × Option ℚ × Option DateTime)
  | [], su, sr, wu, wr => .ok (su, sr, wu, wr)
  | line :: rest, su, sr, wu, wr =>
    let step5 : Except String (Option ℚ × Option DateTime) :=
      if su = none then
        match fiveHourSearch line.data with
        | some (pct, hh, mm) =>
          if hh ≤ 23 ∧ mm ≤ 59 then
            .ok (some (max 0 (100 - (pct : ℚ))),
              some ⟨now.year, now.month, now.day, hh, mm, 0, 0⟩)
          else .error "ValueError"
        | none => .ok (su, sr)
      else .ok (su, sr)
    match step5 with
    | .error e => .error e
    | .ok (su, sr) =>
      let stepW : Except String (Option ℚ × Option DateTime) :=
        if wu = none then
          match weeklySearch line.data with
          | some (pct, hh, mm, day, mon) =>
            match monthOfAbbrev mon with
            | none => .error "ValueError"
            | some m =>
              if 1 ≤ day ∧ day ≤ daysInMonth now.year m ∧ hh ≤ 23 ∧ mm ≤ 59 then
                .ok (some (max 0 (100 - (pct : ℚ))),
                  some ⟨now.year, m, day, hh, mm, 0, 0⟩)
              else .error "ValueError"
          | none => .ok (wu, wr)
        else .ok (wu, wr)
      match stepW with
      | .error e => .error e
      | .ok (wu, wr) =>
        if su.isSome ∧ wu.isSome then .ok (su, sr, wu, wr)
        else histLoop now rest su sr wu wr

/-- Python `list[-n:]` followed by `list.reverse()`. -/
def lastNReversed (n : Nat) (l : List String) : List String :=
  (l.drop (l.length - n)).reverse

/-- `CodexAdapter._parse_from_history` (codex.py lines 178-219);
`hist = none` models a missing history file, otherwise the
`splitlines()` result. -/
def codexHistoryParse (now : DateTime) (histPath : String)
    (hist : Option (List String)) : Except String PartialUsage :=
  match hist with
  | none => .ok { messages := ["missing " ++ histPath] }
  | some allLines =>
    match histLoop now (lastNReversed 300 allLines) none none none none with
    | .error e => .error e
    | .ok (su, sr, wu, wr) =>
      let messages :=
        if su = none ∧ wu = none then
          ["unable to parse Codex usage from sessions or history"]
        else []
      .ok
        { session_used_pct := su
          session_reset_at := sr
          weekly_used_pct := wu
          weekly_reset_at := wr
          messages := messages }

/-- `CodexAdapter._parse` (codex.py lines 31-38): the structured
session result wins when it carries a session percentage, otherwise
the history fallback runs.  `sessionPartial` stands for the value of
`self._parse_from_sessions()`. -/
def codexParse (sessionPartial : PartialUsage) (now : DateTime)
    (histPath : String) (hist : Option (List String)) :
    Except String PartialUsage :=
  if sessionPartial.session_used_pct.isSome then .ok sessionPartial
  else codexHistoryParse now histPath hist

/-- The history log of the C8 scenario: one five-hour-limit line, no
weekly-limit line. -/
def scenarioLines : List String :=
  ["hello", "5h limit: [███░░] 70% left (resets 14:30)", "world"]

/-- `UsageSnapshot` (models.py lines 40-43). -/
structure UsageSnapshot where
  generated_at : DateTime
  providers : List ProviderSnapshot

def StatusKind.str : StatusKind → String
  | .ok => "ok"
  | .partialStatus => "partial"
  | .error => "error"

def SourceKind.str : SourceKind → String
  | .parsed => "parsed"
  | .manual => "manual"
  | .mixed => "mixed"

/-- `ProviderName(value)`: lookup of a string in the enum, `None`
modelling the `ValueError`. -/
def providerNameOfStr (s : String) : Option ProviderName :=
  if s = "codex" then some .codex
  else if s = "claude" then some .claude
  else if s = "gemini" then some .gemini
  else none

/-- `StatusKind(value)`. -/
def statusOfStr (s : String) : Option StatusKind :=
  if s = "ok" then some .ok
  else if s = "partial" then some .partialStatus
  else if s = "error" then some .error
  else none

/-- `SourceKind(value)`. -/
def sourceOfStr (s : String) : Option SourceKind :=
  if s = "parsed" then some .parsed
  else if s = "manual" then some .manual
  else if s = "mixed" then some .mixed
  else none

/-- An optional float as emitted by `json.dumps` (`null` or a number). -/
def optNumJson : Option ℚ → Json
  | none => .null
  | some q => .num q

/-- An optional datetime as emitted through `_json_default`
(`null` or the `isoformat` string). -/
def optDtJson : Option DateTime → Json
  | none => .null
  | some d => .str (isoFormat d)

/-- `asdict(ProviderSnapshot(...))` serialized: the ten keys of the §6
provider object. -/
def providerToJson (p : ProviderSnapshot) : Json :=
  .obj
    [("provider", .str p.provider.str),
     ("status", .str p.status.str),
     ("session_used_pct", optNumJson p.session_used_pct),
     ("session_reset_at", optDtJson p.session_reset_at),
     ("weekly_used_pct", optNumJson p.weekly_used_pct),
     ("weekly_reset_at", optDtJson p.weekly_reset_at),
     ("source", .str p.source.str),
     ("messages", .arr (p.messages.map .str)),
     ("details", p.details),
     ("updated_at", .str (isoFormat p.updated_at))]

/-- `snapshot_to_json` (snapshot.py lines 32-33) at the value level. -/
def snapshotToJsonValue (s : UsageSnapshot) : Json :=
  .obj
    [("generated_at", .str (isoFormat s.generated_at)),
     ("providers", .arr (s.providers.map providerToJson))]

/-- Extraction of a string value (`item["k"]` expected to be `str`). -/
def jStr : Option Json → Option String
  | some (.str s) => some s
  | _ => none

/-- `item.get(k)` assigned directly to an optional float field; the
writer only ever emits a number or `null` there. -/
def readOptNum : Option Json → Option ℚ
  | some (.num q) => some q
  | _ => none

/-- `datetime.fromisoformat(item[k]) if item.get(k) else None`: the
outer `Option` is the success of the read (`none` models the raised
`ValueError`/`TypeError`), the inner the optional field.  A falsy
value (`null`, `""`, `0`, `false`, empty containers) yields `None`
without parsing; a truthy non-string raises. -/
def readOptDt : Option Json → Option (Option DateTime)
  | none => some none
  | some .null => some none
  | some (.str s) => if s = "" then some none else (isoParse s).map some
  | some (.bool b) => if b then none else some none
  | some (.num q) => if q = 0 then some none else none
  | some (.arr []) => some none
  | some (.arr (_ :: _)) => none
  | some (.obj []) => some none
  | some (.obj (_ :: _)) => none

/-- The elements of a serialized `messages` array, all strings. -/
def strList : List Json → Option (List String)
  | [] => some []
  | .str s :: rest => (strList rest).map (s :: ·)
  | _ => none

/-- `item.get("messages", [])` (the writer emits an array of
strings). -/
def readMsgs : Option Json → Option (List String)
  | none => some []
  | some (.arr xs) => strList xs
  | some _ => none

/-- Reconstruction of one provider record (snapshot.py lines 53-67);
`none` models an exception escaping `read_snapshot`. -/
def readProvider (j : Json) : Option ProviderSnapshot :=
  (jStr (j.get "provider")).bind fun ps =>
  (providerNameOfStr ps).bind fun provider =>
  (jStr (j.get "status")).bind fun ss =>
  (statusOfStr ss).bind fun status =>
  (readOptDt (j.get "session_reset_at")).bind fun sra =>
  (readOptDt (j.get "weekly_reset_at")).bind fun wra =>
  (jStr (j.get "source")).bind fun srcs =>
  (sourceOfStr srcs).bind fun source =>
  (readMsgs (j.get "messages")).bind fun messages =>
  (jStr (j.get "updated_at")).bind fun us =>
  (isoParse us).bind fun updated =>
  some
    { provider := provider
      status := status
      session_used_pct := readOptNum (j.get "session_used_pct")
      session_reset_at := sra
      weekly_used_pct := readOptNum (j.get "weekly_used_pct")
      weekly_reset_at := wra
      source := source
      messages := messages
      details := (j.get "details").getD (.obj [])
      updated_at := updated }

def readProviderList (f : Json → Option ProviderSnapshot) :
    List Json → Option (List ProviderSnapshot)
  | [] => some []
  | x :: xs => (f x).bind fun p => (readProviderList f xs).map (p :: ·)

/-- `read_snapshot` (snapshot.py lines 48-69) at the value level. -/
def readSnapshotValue (j : Json) : Option UsageSnapshot :=
  (jStr (j.get "generated_at")).bind fun gs =>
  (isoParse gs).bind fun gen =>
  (match j.get "providers" with
   | some (.arr xs) => some xs
   | _ => none).bind fun items =>
  (readProviderList readProvider items).map fun provs =>
  { generated_at := gen, providers := provs }

/-- A datetime optional field whose value (if any) is representable. -/
def dtOptValid : Option DateTime → Prop
  | none => True
  | some d => d.Valid

instance (o : Option DateTime) : Decidable (dtOptValid o) := by
  cases o <;> unfold dtOptValid <;> infer_instance

/-- Representability of a provider record's datetime fields. -/
def ProviderSnapshotWF (p : ProviderSnapshot) : Prop :=
  dtOptValid p.session_reset_at ∧ dtOptValid p.weekly_reset_at ∧
  p.updated_at.Valid

instance (p : ProviderSnapshot) : Decidable (ProviderSnapshotWF p) := by
  unfold ProviderSnapshotWF; infer_instance

/-- A concrete qualifying project-log line (used to instantiate the
deduplication theorems): requestId "r1", message id "m1", 5 input and
7 output tokens. -/
def sampleEntryLine : LogLine :=
  .obj
    { type := some "assistant"
      message := some
        { role := some "assistant"
          usage := some { input_tokens := some (.num 5), output_tokens := some (.num 7) }
          id := some "m1"
          model := some "opus" }
      requestId := some "r1"
      timestamp := some (.valid ⟨2025, 1, 2, 0, 0, 0, 0⟩) }

/-- A concrete cache-only log object: a qualifying assistant entry whose
usage object has neither `input_tokens` nor `output_tokens`, so its
token total is zero. -/
def sampleCacheOnlyObj : LogObj :=
  { type := some "assistant"
    message := some
      { role := some "assistant"
        usage := some {}
        id := some "m2" }
    timestamp := some (.valid ⟨2025, 1, 2, 0, 0, 0, 0⟩) }

/-- A concrete snapshot instantiating the round-trip theorem. -/
def sampleSnapshot : UsageSnapshot :=
  { generated_at := ⟨2025, 6, 1, 12, 30, 45, 0⟩
    providers :=
      [{ provider := .claude
         status := .ok
         session_used_pct := some (41 / 2)
         session_reset_at := some ⟨2025, 6, 1, 15, 0, 0, 500000⟩
         weekly_used_pct := none
         weekly_reset_at := none
         source := .parsed
         messages := ["derived Claude metrics from current session file: a.jsonl"]
         details := .obj [("dynamic_limits", .obj [("session_tokens", .num 123)])]
         updated_at := ⟨2025, 6, 1, 12, 30, 45, 123456⟩ },
       { provider := .codex
         status := .error
         source := .manual
         messages := ["no usage metrics detected; configure providers.codex.manual.*"]
         updated_at := ⟨2025, 6, 1, 12, 30, 46, 0⟩ }] }

/- ## Claims C1-C3: merge_usage status, precedence, source -/

/-- C1: status is ERROR iff all four reconciled usage fields are absent;
PARTIAL iff some parsed or manual field is present but no usage
percentage is, or a usage percentage is present with no reset time;
OK iff at least one usage percentage and at least one reset time are
both present in the reconciled record. -/
theorem C1_status_classification (name : ProviderName) (part : Option PartialUsage)
    (cfg : ProviderConfig) (now : DateTime) :
    ((merge_usage name part cfg now).status = .error ↔
      (merge_usage name part cfg now).session_used_pct = none ∧
      (merge_usage name part cfg now).session_reset_at = none ∧
      (merge_usage name part cfg now).weekly_used_pct = none ∧
      (merge_usage name part cfg now).weekly_reset_at = none) ∧
    ((merge_usage name part cfg now).status = .partialStatus ↔
      ((parsedAny (part.getD { messages := [] }) = true ∨ manualAny cfg.manual = true) ∧
        (merge_usage name part cfg now).session_used_pct = none ∧
        (merge_usage name part cfg now).weekly_used_pct = none) ∨
      (((merge_usage name part cfg now).session_used_pct ≠ none ∨
          (merge_usage name part cfg now).weekly_used_pct ≠ none) ∧
        (merge_usage name part cfg now).session_reset_at = none ∧
        (merge_usage name part cfg now).weekly_reset_at = none)) ∧
    ((merge_usage name part cfg now).status = .ok ↔
      ((merge_usage name part cfg now).session_used_pct ≠ none ∨
        (merge_usage name part cfg now).weekly_used_pct ≠ none) ∧
      ((merge_usage name part cfg now).session_reset_at ≠ none ∨
        (merge_usage name part cfg now).weekly_reset_at ≠ none)) := by
  rcases part with _ | ⟨a, b, c, d, det, msgs⟩
  · rcases cfg with ⟨en, pm, ⟨e, f, g, h⟩⟩
    cases e <;> cases f <;> cases g <;> cases h <;>
      simp [merge_usage, parsedAny, manualAny, pyOrQ, pyOrDT]
  · rcases cfg with ⟨en, pm, ⟨e, f, g, h⟩⟩
    cases a <;> cases b <;> cases c <;> cases d <;>
      cases e <;> cases f <;> cases g <;> cases h <;>
        simp [merge_usage, parsedAny, manualAny, pyOrQ, pyOrDT]

/-- C2: for each of the four usage fields independently, the merged
value is the parsed value when present, else the manually configured
value. -/
theorem C2_field_precedence (name : ProviderName) (part : Option PartialUsage)
    (cfg : ProviderConfig) (now : DateTime) :
    ((merge_usage name part cfg now).session_used_pct =
      if (part.getD { messages := [] }).session_used_pct.isSome then
        (part.getD { messages := [] }).session_used_pct
      else cfg.manual.session_used_pct) ∧
    ((merge_usage name part cfg now).session_reset_at =
      if (part.getD { messages := [] }).session_reset_at.isSome then
        (part.getD { messages := [] }).session_reset_at
      else cfg.manual.session_reset_at) ∧
    ((merge_usage name part cfg now).weekly_used_pct =
      if (part.getD { messages := [] }).weekly_used_pct.isSome then
        (part.getD { messages := [] }).weekly_used_pct
      else cfg.manual.weekly_used_pct) ∧
    ((merge_usage name part cfg now).weekly_reset_at =
      if (part.getD { messages := [] }).weekly_reset_at.isSome then
        (part.getD { messages := [] }).weekly_reset_at
      else cfg.manual.weekly_reset_at) := by
  rcases part with _ | ⟨a, b, c, d, det, msgs⟩
  · simp [merge_usage, pyOrQ, pyOrDT]
  · cases a <;> cases b <;> cases c <;> cases d <;>
      simp [merge_usage, pyOrQ, pyOrDT]

/-- C3 counterexample: with an absent partial result and a config with
no manual fields, zero fields exist on both sides, yet the produced
snapshot carries the source label "manual" (the claim says the label is
never asserted in that case); the status is ERROR. -/
theorem C3_counterexample :
    parsedAny { messages := [] } = false ∧
    manualAny ({} : ProviderConfig).manual = false ∧
    (merge_usage .claude none {} ⟨2025, 1, 1, 0, 0, 0, 0⟩).source = .manual ∧
    (merge_usage .claude none {} ⟨2025, 1, 1, 0, 0, 0, 0⟩).status = .error :=
  ⟨rfl, rfl, rfl, rfl⟩

/-- C3 amended: source is "mixed" iff both sides contribute at least
one field, "parsed" iff only the parsed side contributes, and "manual"
iff the parsed side contributes nothing (including the case where both
sides are empty, in which case the status degenerates to ERROR). -/
theorem C3_source_classification (name : ProviderName) (part : Option PartialUsage)
    (cfg : ProviderConfig) (now : DateTime) :
    ((merge_usage name part cfg now).source = .mixed ↔
      parsedAny (part.getD { messages := [] }) = true ∧ manualAny cfg.manual = true) ∧
    ((merge_usage name part cfg now).source = .parsed ↔
      parsedAny (part.getD { messages := [] }) = true ∧ manualAny cfg.manual = false) ∧
    ((merge_usage name part cfg now).source = .manual ↔
      parsedAny (part.getD { messages := [] }) = false) ∧
    (parsedAny (part.getD { messages := [] }) = false ∧ manualAny cfg.manual = false →
      (merge_usage name part cfg now).status = .error) := by
  rcases part with _ | ⟨a, b, c, d, det, msgs⟩
  · rcases cfg with ⟨en, pm, ⟨e, f, g, h⟩⟩
    cases e <;> cases f <;> cases g <;> cases h <;>
      simp [merge_usage, parsedAny, manualAny, pyOrQ, pyOrDT]
  · rcases cfg with ⟨en, pm, ⟨e, f, g, h⟩⟩
    cases a <;> cases b <;> cases c <;> cases d <;>
      cases e <;> cases f <;> cases g <;> cases h <;>
        simp [merge_usage, parsedAny, manualAny, pyOrQ, pyOrDT]

/-- Witness for the amended C3 at a concrete zero-field input. -/
theorem C3_source_classification_witness :
    (parsedAny ((none : Option PartialUsage).getD { messages := [] }) = false ∧
      manualAny ({} : ProviderConfig).manual = false) ∧
    (merge_usage .gemini none {} ⟨2025, 6, 1, 12, 0, 0, 0⟩).status = .error :=
  ⟨⟨rfl, rfl⟩,
    (C3_source_classification .gemini none {} ⟨2025, 6, 1, 12, 0, 0, 0⟩).2.2.2
      ⟨rfl, rfl⟩⟩

/- ## Claim C4: P90 estimator -/

/-- C4: the P90 estimator returns 910 on [100, 200, ..., 1000], the
element itself on every singleton, and no estimate on the empty
sequence, in which case the fixed default ceilings (300000 tokens /
200 messages) are used. -/
theorem C4_p90_estimator :
    p90 [100, 200, 300, 400, 500, 600, 700, 800, 900, 1000] = some 910 ∧
    (∀ v : ℚ, p90 [v] = some v) ∧
    p90 ([] : List ℚ) = none ∧
    tokenLimitP90 [] = 300000 ∧
    messageLimitP90 [] = 200 := by
  refine ⟨?_, ?_, rfl, rfl, rfl⟩
  · have h : p90 [100, 200, 300, 400, 500, 600, 700, 800, 900, 1000] =
        some (quantilesInclusive90
          [100, 200, 300, 400, 500, 600, 700, 800, 900, 1000]) := by
      simp [p90]
    rw [h]
    norm_num [quantilesInclusive90, sortedQ, insortQ]
  · intro v
    simp [p90]

/- ## Claims C5 and C10: deduplication and zero-token exclusion -/

/-- A line whose identity key is already registered leaves the scan
state unchanged. -/
theorem scanStep_skip (d7 : DateTime) (st : ScanState) (f : Nat) (l : LogLine)
    (eid : String) (h1 : lineIdentity l = some eid) (h2 : eid ∈ st.seen) :
    scanStep d7 st (f, l) = st := by
  cases l with
  | malformed => rfl
  | obj o =>
    simp only [lineIdentity] at h1
    cases hts : parseTs o.timestamp with
    | none => simp [scanStep, hts]
    | some ts =>
      by_cases hp : isPrimaryAssistantUsageEntry o
      · simp [scanStep, hts, h1, h2, hp]
      · simp [scanStep, hts, hp]

/-- A line with no identity key leaves the scan state unchanged. -/
theorem scanStep_noid (d7 : DateTime) (st : ScanState) (f : Nat) (l : LogLine)
    (h1 : lineIdentity l = none) : scanStep d7 st (f, l) = st := by
  cases l with
  | malformed => rfl
  | obj o =>
    simp only [lineIdentity] at h1
    cases hts : parseTs o.timestamp with
    | none => simp [scanStep, hts]
    | some ts =>
      by_cases hp : isPrimaryAssistantUsageEntry o
      · simp [scanStep, hts, h1, hp]
      · simp [scanStep, hts, hp]

/-- The scan of a concatenated stream is the scan of the first part
continued over the second. -/
theorem scanLines_append (d7 : DateTime) (xs ys : List (Nat × LogLine)) :
    scanLines d7 (xs ++ ys) = List.foldl (scanStep d7) (scanLines d7 xs) ys := by
  simp [scanLines, List.foldl_append]

/-- C5: repeating a line whose identity key has already been registered
by an earlier part of the stream leaves the whole scan result (seen
set, historical entries, per-file entries, weekly sum) unchanged,
regardless of which file the repeat appears in; lines with no identity
key are discarded. -/
theorem C5_dedup (d7 : DateTime) (s₁ s₂ : List (Nat × LogLine)) (f : Nat)
    (l : LogLine) :
    (∀ eid, lineIdentity l = some eid → eid ∈ (scanLines d7 s₁).seen →
      scanLines d7 (s₁ ++ (f, l) :: s₂) = scanLines d7 (s₁ ++ s₂)) ∧
    (lineIdentity l = none →
      scanLines d7 (s₁ ++ (f, l) :: s₂) = scanLines d7 (s₁ ++ s₂)) := by
  constructor
  · intro eid h1 h2
    rw [scanLines_append, scanLines_append, List.foldl_cons,
      scanStep_skip d7 _ f l eid h1 h2]
  · intro h1
    rw [scanLines_append, scanLines_append, List.foldl_cons,
      scanStep_noid d7 _ f l h1]

/-- Witness for C5 at a concrete duplicated line. -/
theorem C5_dedup_witness :
    (lineIdentity sampleEntryLine = some "r1:m1" ∧
      "r1:m1" ∈ (scanLines ⟨2025, 1, 1, 0, 0, 0, 0⟩ [(0, sampleEntryLine)]).seen) ∧
    scanLines ⟨2025, 1, 1, 0, 0, 0, 0⟩
        ([(0, sampleEntryLine)] ++ (1, sampleEntryLine) :: []) =
      scanLines ⟨2025, 1, 1, 0, 0, 0, 0⟩ ([(0, sampleEntryLine)] ++ []) := by
  have h1 : lineIdentity sampleEntryLine = some "r1:m1" := by decide
  have h2 : "r1:m1" ∈ (scanLines ⟨2025, 1, 1, 0, 0, 0, 0⟩
      [(0, sampleEntryLine)]).seen := by
    norm_num [scanLines, scanStep, sampleEntryLine, parseTs,
      isPrimaryAssistantUsageEntry, entryIdentity, pyTruthyStr, usageOf,
      usageTotalTokens, jnumContrib, initScan, dtLe, DateTime.key]
    simp
  exact ⟨⟨h1, h2⟩,
    (C5_dedup ⟨2025, 1, 1, 0, 0, 0, 0⟩ [(0, sampleEntryLine)] [] 1
      sampleEntryLine).1 "r1:m1" h1 h2⟩

/-- C10: a qualifying entry whose token total is not positive only
registers its identity key in the seen set — it contributes to no
historical entries, per-file entries, or weekly sum — and any later
line with that registered identity is discarded entirely. -/
theorem C10_zero_token_entries (d7 : DateTime) (st : ScanState) (f : Nat)
    (o : LogObj) (eid : String) (ts : DateTime) :
    (parseTs o.timestamp = some ts → isPrimaryAssistantUsageEntry o = true →
      entryIdentity o = some eid → eid ∉ st.seen →
      usageTotalTokens (usageOf o) ≤ 0 →
      scanStep d7 st (f, .obj o) = { st with seen := eid :: st.seen }) ∧
    (∀ l : LogLine, lineIdentity l = some eid → eid ∈ st.seen →
      scanStep d7 st (f, l) = st) := by
  constructor
  · intro h1 h2 h3 h4 h5
    simp [scanStep, h1, h2, h3, h4, h5]
  · intro l h1 h2
    exact scanStep_skip d7 st f l eid h1 h2

/-- Witness for C10 at a concrete cache-only entry. -/
theorem C10_zero_token_entries_witness :
    (parseTs sampleCacheOnlyObj.timestamp = some ⟨2025, 1, 2, 0, 0, 0, 0⟩ ∧
      isPrimaryAssistantUsageEntry sampleCacheOnlyObj = true ∧
      entryIdentity sampleCacheOnlyObj = some "m2" ∧
      "m2" ∉ initScan.seen ∧
      usageTotalTokens (usageOf sampleCacheOnlyObj) ≤ 0) ∧
    scanStep ⟨2025, 1, 1, 0, 0, 0, 0⟩ initScan (0, .obj sampleCacheOnlyObj) =
      { initScan with seen := ["m2"] } := by
  have h1 : parseTs sampleCacheOnlyObj.timestamp =
      some ⟨2025, 1, 2, 0, 0, 0, 0⟩ := by decide
  have h2 : isPrimaryAssistantUsageEntry sampleCacheOnlyObj = true := by decide
  have h3 : entryIdentity sampleCacheOnlyObj = some "m2" := by decide
  have h4 : "m2" ∉ initScan.seen := by decide
  have h5 : usageTotalTokens (usageOf sampleCacheOnlyObj) ≤ 0 := by
    norm_num [usageTotalTokens, usageOf, jnumContrib, sampleCacheOnlyObj]
  exact ⟨⟨h1, h2, h3, h4, h5⟩,
    (C10_zero_token_entries ⟨2025, 1, 1, 0, 0, 0, 0⟩ initScan 0
      sampleCacheOnlyObj "m2" ⟨2025, 1, 2, 0, 0, 0, 0⟩).1 h1 h2 h3 h4 h5⟩

/- ## Claims C6 and C7: Claude _parse combination and error handling -/

/-- C6 counterexample: when the stats-cache file is missing, `_parse`
returns early with only an advisory message — the project-log
derivation is not consulted, so its numeric values (session 50 % here)
are dropped. -/
theorem C6_counterexample :
    claudeParse "stats-cache.json" .missing
        { session_used_pct := some 50
          session_reset_at := some ⟨2025, 1, 2, 0, 0, 0, 0⟩
          messages := ["derived Claude metrics from current session file: s.jsonl"] } =
      .ok { messages := ["missing " ++ "stats-cache.json"] } := rfl

/-- C6 amended: when the stats-cache file exists and decodes, the
project-log derivation is always consulted and, field by field, its
values take precedence over the stats-cache values. -/
theorem C6_project_precedence (statsPath : String) (data : Json)
    (proj : PartialUsage) :
    ∃ r : PartialUsage,
      claudeParse statsPath (.ok data) proj = .ok r ∧
      r.session_used_pct = pyOrQ proj.session_used_pct (pickFloat data sessionPctPaths) ∧
      r.weekly_used_pct = pyOrQ proj.weekly_used_pct (pickFloat data weeklyPctPaths) ∧
      r.session_reset_at = pyOrDT proj.session_reset_at (pickDt data sessionResetPaths) ∧
      r.weekly_reset_at = pyOrDT proj.weekly_reset_at (pickDt data weeklyResetPaths) :=
  ⟨_, rfl, rfl, rfl, rfl, rfl⟩

set_option maxRecDepth 4000 in
/-- C8: with the structured session path yielding nothing and a
history log containing the 5h-limit line and no weekly line, the
adapter produces session_used_pct = 30, session_reset_at = today at
14:30, no weekly percentage, and the merged record (no manual config)
has status OK. -/
theorem C8_codex_history_scenario (now : DateTime) :
    ∃ p : PartialUsage,
      codexParse { messages := ["no rate limit data found in Codex session files"] }
          now "history.jsonl" (some scenarioLines) = .ok p ∧
      p.session_used_pct = some 30 ∧
      p.session_reset_at = some ⟨now.year, now.month, now.day, 14, 30, 0, 0⟩ ∧
      p.weekly_used_pct = none ∧
      (merge_usage .codex (some p) {} now).status = .ok := by
  have h1 : fiveHourSearch "world".data = none := by decide
  have h2 : weeklySearch "world".data = none := by decide
  have h3 : fiveHourSearch "5h limit: [███░░] 70% left (resets 14:30)".data =
      some (70, 14, 30) := by decide
  have h4 : weeklySearch "5h limit: [███░░] 70% left (resets 14:30)".data =
      none := by decide
  have h5 : fiveHourSearch "hello".data = none := by decide
  have h6 : weeklySearch "hello".data = none := by decide
  have hlines : lastNReversed 300 scenarioLines =
      ["world", "5h limit: [███░░] 70% left (resets 14:30)", "hello"] := by decide
  have hloop : histLoop now
      ["world", "5h limit: [███░░] 70% left (resets 14:30)", "hello"]
      none none none none =
      .ok (some 30, some ⟨now.year, now.month, now.day, 14, 30, 0, 0⟩,
        none, none) := by
    norm_num [histLoop, h1, h2, h3, h4, h5, h6]
  refine ⟨{ session_used_pct := some 30
            session_reset_at := some ⟨now.year, now.month, now.day, 14, 30, 0, 0⟩
            weekly_used_pct := none
            weekly_reset_at := none
            messages := [] }, ?_, rfl, rfl, rfl, ?_⟩
  · have hcp : codexParse
        { messages := ["no rate limit data found in Codex session files"] }
        now "history.jsonl" (some scenarioLines) =
        codexHistoryParse now "history.jsonl" (some scenarioLines) := rfl
    rw [hcp]
    have hchp : codexHistoryParse now "history.jsonl" (some scenarioLines) =
        (match histLoop now (lastNReversed 300 scenarioLines) none none none none with
         | .error e => .error e
         | .ok (su, sr, wu, wr) =>
           let messages :=
             if su = none ∧ wu = none then
               ["unable to parse Codex usage from sessions or history"]
             else []
           .ok
             { session_used_pct := su
               session_reset_at := sr
               weekly_used_pct := wu
               weekly_reset_at := wr
               messages := messages }) := rfl
    rw [hchp, hlines, hloop]
    rfl
  · rfl

/- ## Claim C9: snapshot round trip -/

theorem padDigits_length (k n : Nat) : (padDigits k n).length = k := by
  induction k generalizing n with
  | zero => rfl
  | succ k ih => simp [padDigits, ih]

theorem digitChar_isDigit {d : Nat} (h : d < 10) :
    (Char.ofNat (48 + d)).isDigit = true := by
  interval_cases d <;> decide

theorem digitChar_toNat {d : Nat} (h : d < 10) :
    (Char.ofNat (48 + d)).toNat - 48 = d := by
  interval_cases d <;> decide

theorem parse_pad_gen (k : Nat) : ∀ (j acc m : Nat) (rest : List Char),
    m < 10 ^ k →
    parseDigitsAcc (k + j) acc (padDigits k m ++ rest) =
      parseDigitsAcc j (acc * 10 ^ k + m) rest := by
  induction k with
  | zero =>
    intro j acc m rest h
    interval_cases m
    simp [padDigits]
  | succ k ih =>
    intro j acc m rest h
    have hm : m / 10 < 10 ^ k := by
      have hp : (10 : ℕ) ^ (k + 1) = 10 ^ k * 10 := by ring
      rw [hp] at h
      omega
    have hd : m % 10 < 10 := Nat.mod_lt _ (by norm_num)
    have hidx : k + 1 + j = k + (j + 1) := by omega
    calc parseDigitsAcc (k + 1 + j) acc (padDigits (k + 1) m ++ rest)
        = parseDigitsAcc (k + (j + 1)) acc
            (padDigits k (m / 10) ++ (Char.ofNat (48 + m % 10) :: rest)) := by
          rw [hidx]
          simp [padDigits]
      _ = parseDigitsAcc (j + 1) (acc * 10 ^ k + m / 10)
            (Char.ofNat (48 + m % 10) :: rest) := ih (j + 1) acc (m / 10) _ hm
      _ = parseDigitsAcc j
            ((acc * 10 ^ k + m / 10) * 10 + ((Char.ofNat (48 + m % 10)).toNat - 48))
            rest := by
          simp [parseDigitsAcc, digitChar_isDigit hd]
      _ = parseDigitsAcc j (acc * 10 ^ (k + 1) + m) rest := by
          rw [digitChar_toNat hd]
          congr 1
          have hdm : 10 * (m / 10) + m % 10 = m := Nat.div_add_mod m 10
          calc (acc * 10 ^ k + m / 10) * 10 + m % 10
              = acc * (10 ^ k * 10) + (10 * (m / 10) + m % 10) := by ring
            _ = acc * 10 ^ (k + 1) + m := by rw [hdm, pow_succ]

theorem parse_pad0 (k m : Nat) (rest : List Char) (h : m < 10 ^ k) :
    parseDigitsAcc k 0 (padDigits k m ++ rest) = some (m, rest) := by
  have hg := parse_pad_gen k 0 0 m rest h
  simpa using hg

theorem parse_pad0_nil (k m : Nat) (h : m < 10 ^ k) :
    parseDigitsAcc k 0 (padDigits k m) = some (m, []) := by
  have hg := parse_pad0 k m [] h
  simpa using hg

theorem isoFormatList_ne_nil (d : DateTime) : isoFormatList d ≠ [] := by
  intro h
  have hl : (isoFormatList d).length = 0 := by rw [h]; rfl
  unfold isoFormatList at hl
  simp [padDigits_length] at hl

theorem isoFormat_ne_empty (d : DateTime) : isoFormat d ≠ "" := by
  intro h
  exact isoFormatList_ne_nil d (congrArg String.data h)

theorem isoParse_isoFormat (d : DateTime) (h : d.Valid) :
    isoParse (isoFormat d) = some d := by
  obtain ⟨y, mo, da, hh, mi, s, us⟩ := d
  simp only [DateTime.Valid] at h
  obtain ⟨h1, h2, h3, h4, h5, h6, h7, h8, h9, h10⟩ := h
  have hy : y < 10 ^ 4 := by
    have : (10 : ℕ) ^ 4 = 10000 := by norm_num
    omega
  have hmo : mo < 10 ^ 2 := by
    have : (10 : ℕ) ^ 2 = 100 := by norm_num
    omega
  have hda : da < 10 ^ 2 := by
    have : (10 : ℕ) ^ 2 = 100 := by norm_num
    omega
  have hhh : hh < 10 ^ 2 := by
    have : (10 : ℕ) ^ 2 = 100 := by norm_num
    omega
  have hmi : mi < 10 ^ 2 := by
    have : (10 : ℕ) ^ 2 = 100 := by norm_num
    omega
  have hss : s < 10 ^ 2 := by
    have : (10 : ℕ) ^ 2 = 100 := by norm_num
    omega
  have hus : us < 10 ^ 6 := by
    have : (10 : ℕ) ^ 6 = 1000000 := by norm_num
    omega
  show isoParseList (isoFormatList ⟨y, mo, da, hh, mi, s, us⟩) = _
  by_cases hus0 : us = 0
  · subst hus0
    simp [isoParseList, isoFormatList, parse_pad0 _ _ _ hy, parse_pad0 _ _ _ hmo,
      parse_pad0 _ _ _ hda, parse_pad0 _ _ _ hhh, parse_pad0 _ _ _ hmi,
      parse_pad0 _ _ _ hss, parse_pad0_nil _ _ hss, expectChar, parseOffsetEnd,
      Option.bind]
  · simp [isoParseList, isoFormatList, hus0, parse_pad0 _ _ _ hy,
      parse_pad0 _ _ _ hmo, parse_pad0 _ _ _ hda, parse_pad0 _ _ _ hhh,
      parse_pad0 _ _ _ hmi, parse_pad0 _ _ _ hss, parse_pad0_nil _ _ hus,
      expectChar, parseOffsetEnd, Option.bind]

theorem providerNameOfStr_str (n : ProviderName) :
    providerNameOfStr n.str = some n := by
  cases n <;> rfl

theorem statusOfStr_str (s : StatusKind) : statusOfStr s.str = some s := by
  cases s <;> rfl

theorem sourceOfStr_str (s : SourceKind) : sourceOfStr s.str = some s := by
  cases s <;> rfl

theorem readOptNum_optNumJson (o : Option ℚ) :
    readOptNum (some (optNumJson o)) = o := by
  cases o <;> rfl

theorem readOptDt_optDtJson (o : Option DateTime) (h : dtOptValid o) :
    readOptDt (some (optDtJson o)) = some o := by
  cases o with
  | none => rfl
  | some d =>
    simp [readOptDt, optDtJson, isoFormat_ne_empty d, isoParse_isoFormat d h]

theorem strList_map (xs : List String) : strList (xs.map Json.str) = some xs := by
  induction xs with
  | nil => rfl
  | cons x xs ih => simp [strList, ih]

theorem readProvider_providerToJson (p : ProviderSnapshot)
    (h : ProviderSnapshotWF p) : readProvider (providerToJson p) = some p := by
  obtain ⟨hsr, hwr, hup⟩ := h
  have g1 : Json.get (providerToJson p) "provider" =
      some (.str p.provider.str) := rfl
  have g2 : Json.get (providerToJson p) "status" =
      some (.str p.status.str) := rfl
  have g3 : Json.get (providerToJson p) "session_used_pct" =
      some (optNumJson p.session_used_pct) := rfl
  have g4 : Json.get (providerToJson p) "session_reset_at" =
      some (optDtJson p.session_reset_at) := rfl
  have g5 : Json.get (providerToJson p) "weekly_used_pct" =
      some (optNumJson p.weekly_used_pct) := rfl
  have g6 : Json.get (providerToJson p) "weekly_reset_at" =
      some (optDtJson p.weekly_reset_at) := rfl
  have g7 : Json.get (providerToJson p) "source" =
      some (.str p.source.str) := rfl
  have g8 : Json.get (providerToJson p) "messages" =
      some (.arr (p.messages.map .str)) := rfl
  have g9 : Json.get (providerToJson p) "details" = some p.details := rfl
  have g10 : Json.get (providerToJson p) "updated_at" =
      some (.str (isoFormat p.updated_at)) := rfl
  simp [readProvider, g1, g2, g3, g4, g5, g6, g7, g8, g9, g10, jStr,
    providerNameOfStr_str, statusOfStr_str, sourceOfStr_str,
    readOptNum_optNumJson, readOptDt_optDtJson _ hsr, readOptDt_optDtJson _ hwr,
    readMsgs, strList_map, isoParse_isoFormat _ hup, Option.bind]

theorem readProviderList_map (ps : List ProviderSnapshot)
    (h : ∀ p ∈ ps, ProviderSnapshotWF p) :
    readProviderList readProvider (ps.map providerToJson) = some ps := by
  induction ps with
  | nil => rfl
  | cons p ps ih =>
    simp [readProviderList, readProvider_providerToJson p (h p (by simp)),
      ih (fun q hq => h q (by simp [hq])), Option.bind]

/-- C9: serializing a snapshot to the §6 JSON shape and reading it
back reconstructs an equal snapshot, field for field, with optional
fields kept as null versus present. -/
theorem C9_snapshot_roundtrip (s : UsageSnapshot) (h1 : s.generated_at.Valid)
    (h2 : ∀ p ∈ s.providers, ProviderSnapshotWF p) :
    readSnapshotValue (snapshotToJsonValue s) = some s := by
  have g1 : Json.get (snapshotToJsonValue s) "generated_at" =
      some (.str (isoFormat s.generated_at)) := rfl
  have g2 : Json.get (snapshotToJsonValue s) "providers" =
      some (.arr (s.providers.map providerToJson)) := rfl
  simp [readSnapshotValue, g1, g2, jStr, isoParse_isoFormat _ h1,
    readProviderList_map _ h2, Option.bind]

/-- Witness for C9 at a concrete two-provider snapshot. -/
theorem C9_snapshot_roundtrip_witness :
    (sampleSnapshot.generated_at.Valid ∧
      ∀ p ∈ sampleSnapshot.providers, ProviderSnapshotWF p) ∧
    readSnapshotValue (snapshotToJsonValue sampleSnapshot) =
      some sampleSnapshot := by
  have hv : sampleSnapshot.generated_at.Valid := by decide
  have hp : ∀ p ∈ sampleSnapshot.providers, ProviderSnapshotWF p := by decide
  exact ⟨⟨hv, hp⟩, C9_snapshot_roundtrip sampleSnapshot hv hp⟩

end Usagedash
